import Mathlib

/-!
Shallow embedding of the real-time socket subsystem of the chat service
(src/server.js socket handler together with the mongoose models it uses:
src/models/chat.js, src/models/message.js and the GroupChat schema).

The JS runtime state that the handlers read and write is modelled by
`ServerState`: the in-process `activeUsers` Map (userId to socketId), the
socket.io room membership, and the persisted collections (users, chats,
groups, messages, notifications, friendships).  Each socket event handler
becomes a pure function from a state and a payload to a new state plus the
list of emitted events, in source order.  Database calls that the handler
awaits can be made to fail through an explicit failure-point argument,
which models a rejected promise being caught by the handler's catch block.
-/

namespace SocketChat

/-- The activeUsers JS Map from userId to socketId (insertion-ordered). -/
abbrev PresenceMap := List (String × String)

/-- Map.get: the socketId stored for a userId, if any. -/
def mget (m : PresenceMap) (k : String) : Option String :=
  (m.find? (fun p => p.1 == k)).map (fun p => p.2)

/-- Map.has. -/
def mhas (m : PresenceMap) (k : String) : Bool :=
  (mget m k).isSome

/-- Map.set: replaces the value in place for an existing key, else appends. -/
def mset (m : PresenceMap) (k v : String) : PresenceMap :=
  if mhas m k then m.map (fun p => if p.1 == k then (k, v) else p)
  else m ++ [(k, v)]

/-- Map.delete, keyed by userId only. -/
def mdelete (m : PresenceMap) (k : String) : PresenceMap :=
  m.filter (fun p => p.1 != k)

/-- socket.io room membership: room name to the sockets currently joined. -/
abbrev Rooms := List (String × List String)

/-- The sockets currently in a room (io.to targets exactly these). -/
def roomSockets (rooms : Rooms) (room : String) : List String :=
  ((rooms.find? (fun p => p.1 == room)).map (fun p => p.2)).getD []

/-- socket.join. -/
def joinRoom (rooms : Rooms) (room sid : String) : Rooms :=
  if (rooms.find? (fun p => p.1 == room)).isSome then
    rooms.map (fun p =>
      if p.1 == room then (p.1, if sid ∈ p.2 then p.2 else p.2 ++ [sid]) else p)
  else rooms ++ [(room, [sid])]

/-- socket.leave: never fails, a no-op for a socket not in the room. -/
def leaveRoom (rooms : Rooms) (room sid : String) : Rooms :=
  rooms.map (fun p => if p.1 == room then (p.1, p.2.filter (fun s => s != sid)) else p)

/-- One entry of a message's readBy list ({user, readAt}). -/
structure ReadEntry where
  user : String
  readAt : Nat
deriving Repr, DecidableEq

/-- A persisted Message document (the fields the socket handlers touch). -/
structure MessageDoc where
  mid : String
  sender : String
  content : String
  chatId : String
  chatType : String
  messageType : String
  mediaUrl : Option String
  readBy : List ReadEntry
deriving Repr, DecidableEq

/-- A persisted one-to-one Chat document. -/
structure ChatDoc where
  cid : String
  participants : List String
  lastActivity : Nat
deriving Repr, DecidableEq

/-- One member entry of a GroupChat ({user, role, joinedAt}; only user is read here). -/
structure GroupMember where
  user : String
deriving Repr, DecidableEq

/-- A persisted GroupChat document (the fields the socket handlers touch). -/
structure GroupDoc where
  gid : String
  name : String
  members : List GroupMember
  lastActivity : Nat
deriving Repr, DecidableEq

/-- GroupChatSchema.methods.hasMember: membership test over the members list. -/
def GroupDoc.hasMember (g : GroupDoc) (userId : String) : Bool :=
  g.members.any (fun m => m.user == userId)

/-- A persisted Notification document. -/
structure NotificationDoc where
  nid : String
  recipient : String
  sender : String
  ntype : String
  content : String
  relatedChatId : String
  relatedChatType : String
  relatedMessageId : String
  isRead : Bool
  readAt : Option Nat
deriving Repr, DecidableEq

/-- A persisted User document (the fields the socket handlers touch). -/
structure UserDoc where
  uid : String
  username : String
  status : String
  socketId : Option String
  lastSeen : Nat
deriving Repr, DecidableEq

/-- A persisted Friendship document. -/
structure FriendshipDoc where
  requester : String
  recipient : String
  fstatus : String
deriving Repr, DecidableEq

/-- The whole state a handler invocation can observe or mutate. -/
structure ServerState where
  activeUsers : PresenceMap
  rooms : Rooms
  users : List UserDoc
  chats : List ChatDoc
  groups : List GroupDoc
  messages : List MessageDoc
  notifications : List NotificationDoc
  friendships : List FriendshipDoc
deriving Repr, DecidableEq

/-- One socket.io emission: the socket it is delivered to, the event name,
and a payload summary (message id, error string, or status value). -/
structure Emit where
  target : String
  event : String
  payload : String
deriving Repr, DecidableEq

/-- The identity attached to the handling socket (socket.user and socket.id). -/
structure SendCtx where
  senderId : String
  senderUsername : String
  senderSocket : String
deriving Repr, DecidableEq

/-- JS template interpolation of a possibly-undefined string. -/
def jsShow (s : Option String) : String :=
  match s with
  | some t => t
  | none => "undefined"

/-- Notification content built by the send-private-message handler: the
text content truncated by substring(0, 30) with an ellipsis appended when
content.length exceeds 30, or a message-type summary when content is falsy. -/
def privateNotifContent (username content : String) (messageType : Option String) : String :=
  if content ≠ "" then
    username ++ " sent you a message: " ++ content.take 30 ++
      (if 30 < content.length then "..." else "")
  else
    username ++ " sent you a " ++ jsShow messageType

/-- Notification content built by the send-group-message handler. -/
def groupNotifContent (username content groupName : String)
    (messageType : Option String) : String :=
  if content ≠ "" then
    username ++ " sent a message in " ++ groupName ++ ": " ++ content.take 30 ++
      (if 30 < content.length then "..." else "")
  else
    username ++ " sent a " ++ jsShow messageType ++ " in " ++ groupName

/-- Awaited database writes of the send-private-message handler that can fail. -/
inductive PFail where
  | chatSave
  | messageSave
  | notifSave
deriving Repr, DecidableEq

/-- Payload of send-private-message; content = "" models a falsy content. -/
structure PrivatePayload where
  recipientId : String
  content : String
  mediaUrl : Option String
  messageType : Option String
deriving Repr, DecidableEq

/-- The send-private-message handler (src/server.js lines 250 to 332).
Finds or creates the chat and saves its lastActivity, persists the message,
emits receive-private-message when the recipient has an activeUsers entry,
persists a Notification when it does not, then acknowledges with
private-message-sent.  A failing await jumps to the catch block, which
emits message-error to the sender; writes already made stay in place. -/
def sendPrivateMessage (st : ServerState) (ctx : SendCtx) (p : PrivatePayload)
    (freshChatId freshMsgId freshNotifId : String) (now : Nat)
    (failAt : Option PFail) : ServerState × List Emit :=
  let found := st.chats.find? (fun c =>
    c.participants.contains ctx.senderId && c.participants.contains p.recipientId)
  let chat : ChatDoc :=
    match found with
    | none => ⟨freshChatId, [ctx.senderId, p.recipientId], now⟩
    | some c0 => { c0 with lastActivity := now }
  if failAt = some PFail.chatSave then
    (st, [⟨ctx.senderSocket, "message-error", "Failed to send message"⟩])
  else
    let chats1 :=
      match found with
      | none => st.chats ++ [chat]
      | some c0 => st.chats.map (fun x => if x.cid == c0.cid then chat else x)
    let st1 := { st with chats := chats1 }
    let message : MessageDoc :=
      ⟨freshMsgId, ctx.senderId, p.content, chat.cid, "Chat",
        p.messageType.getD "text", p.mediaUrl, [⟨ctx.senderId, now⟩]⟩
    if failAt = some PFail.messageSave then
      (st1, [⟨ctx.senderSocket, "message-error", "Failed to send message"⟩])
    else
      let st2 := { st1 with messages := st1.messages ++ [message] }
      match mget st.activeUsers p.recipientId with
      | some sid =>
          (st2, [⟨sid, "receive-private-message", freshMsgId⟩,
                 ⟨ctx.senderSocket, "private-message-sent", freshMsgId⟩])
      | none =>
          if failAt = some PFail.notifSave then
            (st2, [⟨ctx.senderSocket, "message-error", "Failed to send message"⟩])
          else
            let notif : NotificationDoc :=
              ⟨freshNotifId, p.recipientId, ctx.senderId, "message",
                privateNotifContent ctx.senderUsername p.content p.messageType,
                chat.cid, "Chat", freshMsgId, false, none⟩
            ({ st2 with notifications := st2.notifications ++ [notif] },
              [⟨ctx.senderSocket, "private-message-sent", freshMsgId⟩])

/-- Awaited database writes of the send-group-message handler that can fail. -/
inductive GFail where
  | groupSave
  | messageSave
  | notifInsert
deriving Repr, DecidableEq

/-- Payload of send-group-message; content = "" models a falsy content. -/
structure GroupPayload where
  groupId : String
  content : String
  mediaUrl : Option String
  messageType : Option String
deriving Repr, DecidableEq

/-- The non-sender group members with no activeUsers entry, in member order
(the offlineMembers computation of src/server.js lines 384 to 390). -/
def offlineMembersOf (st : ServerState) (g : GroupDoc) (senderId : String) : List String :=
  (g.members.filter (fun m => m.user != senderId && !(mhas st.activeUsers m.user))).map
    (fun m => m.user)

/-- The send-group-message handler (src/server.js lines 336 to 419).
Rejects an unknown group or a non-member sender with message-error, saves
the group's lastActivity, persists the message, emits receive-group-message
to every socket in the group room via io.to (the sender's socket included
when joined), bulk-inserts Notifications for non-sender members with no
activeUsers entry, then acknowledges with group-message-sent.  A failing
await jumps to the catch block, which emits message-error. -/
def sendGroupMessage (st : ServerState) (ctx : SendCtx) (p : GroupPayload)
    (freshMsgId freshNotifBase : String) (now : Nat)
    (failAt : Option GFail) : ServerState × List Emit :=
  match st.groups.find? (fun g => g.gid == p.groupId) with
  | none => (st, [⟨ctx.senderSocket, "message-error", "Group not found"⟩])
  | some group0 =>
    if !(group0.hasMember ctx.senderId) then
      (st, [⟨ctx.senderSocket, "message-error", "Not a member of this group"⟩])
    else
      let group := { group0 with lastActivity := now }
      if failAt = some GFail.groupSave then
        (st, [⟨ctx.senderSocket, "message-error", "Failed to send message"⟩])
      else
        let st1 := { st with
          groups := st.groups.map (fun g => if g.gid == group0.gid then group else g) }
        let message : MessageDoc :=
          ⟨freshMsgId, ctx.senderId, p.content, p.groupId, "GroupChat",
            p.messageType.getD "text", p.mediaUrl, [⟨ctx.senderId, now⟩]⟩
        if failAt = some GFail.messageSave then
          (st1, [⟨ctx.senderSocket, "message-error", "Failed to send message"⟩])
        else
          let st2 := { st1 with messages := st1.messages ++ [message] }
          let roomEmits : List Emit :=
            (roomSockets st.rooms ("group:" ++ p.groupId)).map
              (fun sid => ⟨sid, "receive-group-message", freshMsgId⟩)
          let offline := offlineMembersOf st group ctx.senderId
          if offline.length > 0 then
            if failAt = some GFail.notifInsert then
              (st2, roomEmits ++
                [⟨ctx.senderSocket, "message-error", "Failed to send message"⟩])
            else
              let notifs : List NotificationDoc := offline.map (fun memberId =>
                ⟨freshNotifBase ++ memberId, memberId, ctx.senderId, "message",
                  groupNotifContent ctx.senderUsername p.content group.name p.messageType,
                  p.groupId, "GroupChat", freshMsgId, false, none⟩)
              ({ st2 with notifications := st2.notifications ++ notifs },
                roomEmits ++ [⟨ctx.senderSocket, "group-message-sent", freshMsgId⟩])
          else
            (st2, roomEmits ++ [⟨ctx.senderSocket, "group-message-sent", freshMsgId⟩])

/-- The typing-start handler (src/server.js lines 422 to 458).  For a
one-to-one chat it looks the chat up, takes the first participant whose id
differs from the caller, and emits typing to that user's socket when one is
registered; for a group chat it emits typing to every socket in the group
room except the caller's own (socket.to).  No membership check, no state
change, and an unknown chat id is a silent no-op. -/
def typingStart (st : ServerState) (ctx : SendCtx) (chatId chatType : String) : List Emit :=
  if chatType = "Chat" then
    match st.chats.find? (fun c => c.cid == chatId) with
    | none => []
    | some chat =>
      match chat.participants.find? (fun pid => pid != ctx.senderId) with
      | none => []
      | some otherUserId =>
        match mget st.activeUsers otherUserId with
        | none => []
        | some sid => [⟨sid, "typing", ctx.senderId⟩]
  else if chatType = "GroupChat" then
    ((roomSockets st.rooms ("group:" ++ chatId)).filter
      (fun s => s != ctx.senderSocket)).map
      (fun sid => ⟨sid, "typing", ctx.senderId⟩)
  else []

/-- The mark-as-read handler (src/server.js lines 499 to 540).  Loads the
message; when the caller is not yet in readBy, appends a read entry, saves,
and emits message-read to the sender's socket when one is registered; when
the caller already read it, does nothing.  No participant check. -/
def markAsRead (st : ServerState) (ctx : SendCtx) (messageId : String) (now : Nat) :
    ServerState × List Emit :=
  match st.messages.find? (fun m => m.mid == messageId) with
  | none => (st, [⟨ctx.senderSocket, "error", "Message not found"⟩])
  | some message =>
    if message.readBy.any (fun r => r.user == ctx.senderId) then (st, [])
    else
      let m2 := { message with readBy := message.readBy ++ [⟨ctx.senderId, now⟩] }
      let st1 := { st with
        messages := st.messages.map (fun m => if m.mid == messageId then m2 else m) }
      match mget st.activeUsers message.sender with
      | none => (st1, [])
      | some sid => (st1, [⟨sid, "message-read", messageId⟩])

/-- The accepted-friend ids of a user, as computed by the handlers from the
Friendship collection. -/
def friendIdsOf (st : ServerState) (userId : String) : List String :=
  (st.friendships.filter (fun f =>
    (f.requester == userId || f.recipient == userId) && f.fstatus == "accepted")).map
    (fun f => if f.requester == userId then f.recipient else f.requester)

/-- The set-status handler (src/server.js lines 590 to 633).  Validates the
status value, updates the persisted user status (and lastSeen when going
offline), and emits user-status-change to each accepted friend with an
activeUsers entry.  It touches neither activeUsers nor the rooms. -/
def setStatus (st : ServerState) (ctx : SendCtx) (status : String) (now : Nat) :
    ServerState × List Emit :=
  if status ∉ ["online", "away", "offline"] then
    (st, [⟨ctx.senderSocket, "error", "Invalid status"⟩])
  else
    let st1 := { st with users := st.users.map (fun u =>
      if u.uid == ctx.senderId then
        { u with status := status,
                 lastSeen := if status = "offline" then now else u.lastSeen }
      else u) }
    (st1, (friendIdsOf st ctx.senderId).filterMap (fun fid =>
      (mget st.activeUsers fid).map (fun sid => ⟨sid, "user-status-change", status⟩)))

/-- The connection handler (src/server.js lines 176 to 243).  Persists the
user as online with the socket id, sets the activeUsers entry (replacing
any prior one for the same user), joins the personal room and one room per
group the user is a member of, emits user-status-change to online friends,
and pushes active-friends and the unread-notification count to the caller. -/
def handleConnect (st : ServerState) (userId username socketId : String) (now : Nat) :
    ServerState × List Emit :=
  let users1 := st.users.map (fun u =>
    if u.uid == userId then
      { u with status := "online", socketId := some socketId, lastSeen := now }
    else u)
  let active1 := mset st.activeUsers userId socketId
  let rooms1 := joinRoom st.rooms userId socketId
  let rooms2 := (st.groups.filter (fun g => g.hasMember userId)).foldl
    (fun rs g => joinRoom rs ("group:" ++ g.gid) socketId) rooms1
  let friends := friendIdsOf st userId
  let statusEmits : List Emit := friends.filterMap (fun fid =>
    (mget active1 fid).map (fun sid => ⟨sid, "user-status-change", "online"⟩))
  let activeFriendCount := (friends.filter (fun fid => mhas active1 fid)).length
  let unread := (st.notifications.filter (fun n => n.recipient == userId && !n.isRead)).length
  ({ st with users := users1, activeUsers := active1, rooms := rooms2 },
    statusEmits ++
      [⟨socketId, "active-friends", toString activeFriendCount⟩,
       ⟨socketId, "unread-notifications-count", toString unread⟩])

/-- The disconnect handler (src/server.js lines 707 to 752).  Persists the
user as offline, deletes the activeUsers entry keyed by userId alone (the
stored socket id is not compared with the disconnecting socket's id), and
emits user-status-change to online friends.  The socketId argument of the
disconnecting socket is never consulted, exactly as in the source. -/
def handleDisconnect (st : ServerState) (userId username socketId : String) (now : Nat) :
    ServerState × List Emit :=
  let users1 := st.users.map (fun u =>
    if u.uid == userId then { u with status := "offline", socketId := none, lastSeen := now }
    else u)
  let active1 := mdelete st.activeUsers userId
  ({ st with users := users1, activeUsers := active1 },
    (friendIdsOf st userId).filterMap (fun fid =>
      (mget active1 fid).map (fun sid => ⟨sid, "user-status-change", "offline"⟩)))

/-- The leave-group handler (src/server.js lines 662 to 671): removes the
socket from the group room unconditionally and acknowledges. -/
def leaveGroup (st : ServerState) (ctx : SendCtx) (groupId : String) :
    ServerState × List Emit :=
  ({ st with rooms := leaveRoom st.rooms ("group:" ++ groupId) ctx.senderSocket },
    [⟨ctx.senderSocket, "left-group", groupId⟩])

/-- The notification-read handler (src/server.js lines 695 to 704): a bare
findByIdAndUpdate setting isRead and readAt on the notification with the
given id, for any caller; an absent id is a no-op, and a failing update is
caught and only logged.  Nothing is ever emitted. -/
def notificationRead (st : ServerState) (ctx : SendCtx) (notificationId : String)
    (now : Nat) (dbFails : Bool) : ServerState × List Emit :=
  if dbFails then (st, [])
  else
    ({ st with notifications := st.notifications.map (fun n =>
        if n.nid == notificationId then { n with isRead := true, readAt := some now }
        else n) }, [])

/-- A two-member group used by the concrete fanout scenarios. -/
def gW : GroupDoc := ⟨"g1", "grp", [⟨"A"⟩, ⟨"B"⟩], 0⟩

/-- A state where user A is connected (socket sA, joined to the group room)
and user B has no presence entry. -/
def fanoutW : ServerState :=
  ⟨[("A", "sA")], [("group:g1", ["sA"])], [], [], [gW], [], [], []⟩

/-- A state where user B is connected with socket sB. -/
def statusW : ServerState :=
  ⟨[("B", "sB")], [], [⟨"B", "bob", "online", some "sB", 0⟩], [], [], [], [], []⟩

/-- A state like fanoutW that additionally holds an existing direct chat
between A and B. -/
def chatW : ServerState :=
  ⟨[("A", "sA")], [("group:g1", ["sA"])], [], [⟨"c1", ["A", "B"], 0⟩], [gW], [], [], []⟩

/-- How many readBy entries a message holds for one user. -/
def countReads (m : MessageDoc) (u : String) : Nat :=
  (m.readBy.filter (fun r => r.user == u)).length

/-- A state with chat c1 between A and B, group g1, one message m1 in c1
already read by its sender A, and only A connected. -/
def authW : ServerState :=
  ⟨[("A", "sA")], [], [], [⟨"c1", ["A", "B"], 0⟩], [gW],
    [⟨"m1", "A", "hi", "c1", "Chat", "text", none, [⟨"A", 0⟩]⟩], [], []⟩

/-- Deleting a key always leaves no entry for it. -/
theorem mget_mdelete (m : PresenceMap) (k : String) : mget (mdelete m k) k = none := by
  simp only [mget, mdelete, Option.map_eq_none', List.find?_eq_none, List.mem_filter]
  intro p hp
  simpa using hp.2

/-- String.take is the identity on strings no longer than the cut. -/
theorem string_take_of_le (s : String) (n : Nat) (h : s.length ≤ n) : s.take n = s := by
  cases s with
  | mk data =>
    rw [String.take_eq]
    simp only [String.length_mk] at h
    simp [List.take_of_length_le h]

/-- Replacing the first find? hit through a pointwise map keeps it the hit,
provided the replacement still satisfies the predicate. -/
theorem find?_map_update {α : Type} (p : α → Bool) (l : List α) (m m2 : α)
    (hm : l.find? p = some m) (h2 : p m2 = true) :
    (l.map (fun x => if p x then m2 else x)).find? p = some m2 := by
  induction l with
  | nil => simp at hm
  | cons a t ih =>
    by_cases ha : p a = true
    · simp [List.find?_cons, ha, h2]
    · simp only [List.find?_cons, ha, Bool.false_eq_true, if_false, List.map_cons] at hm ⊢
      exact ih hm

/-- C2 counterexample: the claim that a disconnect of a superseded session
never removes the entry registered by a newer session is false.  User u1
connects with socket s1, reconnects with socket s2 (the registry then holds
s2), and the late disconnect of s1 erases the s2 entry. -/
theorem disconnect_stale_clobbers_newer :
    mget ((handleConnect ⟨[], [], [], [], [], [], [], []⟩
        "u1" "alice" "s1" 0).1).activeUsers "u1" = some "s1" ∧
    mget ((handleConnect (handleConnect ⟨[], [], [], [], [], [], [], []⟩
        "u1" "alice" "s1" 0).1 "u1" "alice" "s2" 1).1).activeUsers "u1" = some "s2" ∧
    mget ((handleDisconnect (handleConnect (handleConnect
        ⟨[], [], [], [], [], [], [], []⟩ "u1" "alice" "s1" 0).1
        "u1" "alice" "s2" 1).1 "u1" "alice" "s1" 2).1).activeUsers "u1" = none := by
  decide

/-- C2 (amended): the disconnect handler removes the Presence Registry entry
for the disconnecting user unconditionally, keyed by userId alone; the
disconnecting connection's handle is never compared with the stored handle,
so a late disconnect of a superseded session also removes the entry
registered by a newer session of the same user. -/
theorem disconnect_removes_entry_unconditionally (st : ServerState)
    (userId username socketId : String) (now : Nat) :
    (handleDisconnect st userId username socketId now).1.activeUsers
      = mdelete st.activeUsers userId ∧
    mget (handleDisconnect st userId username socketId now).1.activeUsers userId
      = none := by
  exact ⟨rfl, mget_mdelete _ _⟩

/-- C10: the notification-read handler emits nothing, ignores the identity of
the caller entirely (any two callers produce identical results, so no
recipient check is possible), sets isRead and readAt on the notification with
the given id whoever its recipient is, and swallows a database failure by
leaving the state unchanged with still no event to the caller. -/
theorem notification_read_unconditional (st : ServerState) (ca cb : SendCtx)
    (nid : String) (now : Nat) (dbFails : Bool) :
    (notificationRead st ca nid now dbFails).2 = [] ∧
    notificationRead st ca nid now dbFails = notificationRead st cb nid now dbFails ∧
    (notificationRead st ca nid now false).1.notifications
      = st.notifications.map (fun n =>
          if n.nid == nid then { n with isRead := true, readAt := some now } else n) ∧
    (notificationRead st ca nid now true).1 = st := by
  refine ⟨?_, rfl, rfl, rfl⟩
  unfold notificationRead
  split <;> rfl

/-- Successful private send to a recipient with a presence entry: the live
event goes to that socket, the ack follows, and no notification is written. -/
theorem sendPrivate_online (st : ServerState) (ctx : SendCtx) (p : PrivatePayload)
    (fc fm fn : String) (now : Nat) (sid : String)
    (hon : mget st.activeUsers p.recipientId = some sid) :
    (sendPrivateMessage st ctx p fc fm fn now none).1.notifications
      = st.notifications ∧
    (sendPrivateMessage st ctx p fc fm fn now none).2
      = [⟨sid, "receive-private-message", fm⟩,
         ⟨ctx.senderSocket, "private-message-sent", fm⟩] := by
  unfold sendPrivateMessage
  cases hfound : st.chats.find? (fun c =>
      c.participants.contains ctx.senderId && c.participants.contains p.recipientId) with
  | none => simp [hfound, hon]
  | some c0 => simp [hfound, hon]

/-- Successful private send to a recipient with no presence entry: exactly
one notification for that recipient is appended and the only emission is the
ack to the sender (no live delivery event at all). -/
theorem sendPrivate_offline (st : ServerState) (ctx : SendCtx) (p : PrivatePayload)
    (fc fm fn : String) (now : Nat)
    (hoff : mget st.activeUsers p.recipientId = none) :
    (∃ cid,
      (sendPrivateMessage st ctx p fc fm fn now none).1.notifications
        = st.notifications ++
          [⟨fn, p.recipientId, ctx.senderId, "message",
            privateNotifContent ctx.senderUsername p.content p.messageType,
            cid, "Chat", fm, false, none⟩]) ∧
    (sendPrivateMessage st ctx p fc fm fn now none).2
      = [⟨ctx.senderSocket, "private-message-sent", fm⟩] := by
  unfold sendPrivateMessage
  cases hfound : st.chats.find? (fun c =>
      c.participants.contains ctx.senderId && c.participants.contains p.recipientId) with
  | none => exact ⟨⟨fc, by simp [hfound, hoff]⟩, by simp [hfound, hoff]⟩
  | some c0 => exact ⟨⟨c0.cid, by simp [hfound, hoff]⟩, by simp [hfound, hoff]⟩

/-- Successful group send by a member: the live event is emitted to exactly
the sockets currently in the group room, the ack follows, and notifications
are appended for exactly the non-sender members with no presence entry. -/
theorem sendGroup_success (st : ServerState) (ctx : SendCtx) (gp : GroupPayload)
    (fm2 base : String) (now : Nat) (g : GroupDoc)
    (hg : st.groups.find? (fun x => x.gid == gp.groupId) = some g)
    (hm : g.hasMember ctx.senderId = true) :
    (sendGroupMessage st ctx gp fm2 base now none).1.notifications
      = st.notifications ++ (offlineMembersOf st g ctx.senderId).map (fun memberId =>
          ⟨base ++ memberId, memberId, ctx.senderId, "message",
            groupNotifContent ctx.senderUsername gp.content g.name gp.messageType,
            gp.groupId, "GroupChat", fm2, false, none⟩) ∧
    (sendGroupMessage st ctx gp fm2 base now none).2
      = (roomSockets st.rooms ("group:" ++ gp.groupId)).map
          (fun sid => ⟨sid, "receive-group-message", fm2⟩)
        ++ [⟨ctx.senderSocket, "group-message-sent", fm2⟩] := by
  unfold sendGroupMessage
  rw [hg]
  by_cases hlen : 0 < (List.filter
      (fun m => m.user != ctx.senderId && !mhas st.activeUsers m.user) g.members).length
  · simp [hm, offlineMembersOf, hlen]
  · have hnil : List.filter
        (fun m => m.user != ctx.senderId && !mhas st.activeUsers m.user) g.members = [] :=
      List.length_eq_zero.mp (Nat.eq_zero_of_not_pos hlen)
    simp [hm, offlineMembersOf, hlen, hnil]

/-- C1 counterexample: the exactly-one-of invariant fails for group fanout.
Users A and B connect (joining the group:g1 room); B then leaves the room
via leave-group while staying connected.  When A sends a group message, B is
a computed recipient (non-sender member) yet receives no live event (B's
socket is not in the room io.to targets) and no Notification is persisted
for B (B still has a presence entry, so B is not counted offline). -/
theorem group_member_gets_neither_delivery_nor_notification :
    let st1 := (handleConnect ⟨[], [], [], [], [gW], [], [], []⟩ "A" "alice" "sA" 0).1
    let st2 := (handleConnect st1 "B" "bob" "sB" 1).1
    let st3 := (leaveGroup st2 ⟨"B", "bob", "sB"⟩ "g1").1
    let r := sendGroupMessage st3 ⟨"A", "alice", "sA"⟩ ⟨"g1", "hi", none, none⟩
      "m1" "n-" 5 none
    (⟨"B"⟩ : GroupMember) ∈ gW.members ∧
    mhas st3.activeUsers "B" = true ∧
    r.2.filter (fun e => e.target == "sB") = [] ∧
    r.1.notifications = [] := by
  decide

/-- C1 (amended): for a private fanout, exactly one of live delivery event
and persisted Notification occurs, and the Notification is created iff the
recipient has no Presence Registry entry at fanout time.  For a group
fanout, the live event is delivered to exactly the sockets currently in the
group room, and Notifications are persisted for exactly the non-sender
members without a Presence Registry entry; a connected member whose socket
is not in the group room therefore receives neither. -/
theorem fanout_live_delivery_vs_notification (st : ServerState) (ctx : SendCtx)
    (p : PrivatePayload) (fc fm fn : String) (now : Nat)
    (g : GroupDoc) (gp : GroupPayload) (fm2 base : String)
    (hg : st.groups.find? (fun x => x.gid == gp.groupId) = some g)
    (hm : g.hasMember ctx.senderId = true) :
    (∀ sid, mget st.activeUsers p.recipientId = some sid →
      (sendPrivateMessage st ctx p fc fm fn now none).1.notifications
        = st.notifications ∧
      (sendPrivateMessage st ctx p fc fm fn now none).2
        = [⟨sid, "receive-private-message", fm⟩,
           ⟨ctx.senderSocket, "private-message-sent", fm⟩]) ∧
    (mget st.activeUsers p.recipientId = none →
      (∃ cid, (sendPrivateMessage st ctx p fc fm fn now none).1.notifications
          = st.notifications ++
            [⟨fn, p.recipientId, ctx.senderId, "message",
              privateNotifContent ctx.senderUsername p.content p.messageType,
              cid, "Chat", fm, false, none⟩]) ∧
      (sendPrivateMessage st ctx p fc fm fn now none).2
        = [⟨ctx.senderSocket, "private-message-sent", fm⟩]) ∧
    ((sendGroupMessage st ctx gp fm2 base now none).1.notifications
      = st.notifications ++ (offlineMembersOf st g ctx.senderId).map (fun memberId =>
          ⟨base ++ memberId, memberId, ctx.senderId, "message",
            groupNotifContent ctx.senderUsername gp.content g.name gp.messageType,
            gp.groupId, "GroupChat", fm2, false, none⟩)) ∧
    ((sendGroupMessage st ctx gp fm2 base now none).2
      = (roomSockets st.rooms ("group:" ++ gp.groupId)).map
          (fun sid => ⟨sid, "receive-group-message", fm2⟩)
        ++ [⟨ctx.senderSocket, "group-message-sent", fm2⟩]) := by
  exact ⟨fun sid hon => sendPrivate_online st ctx p fc fm fn now sid hon,
         fun hoff => sendPrivate_offline st ctx p fc fm fn now hoff,
         (sendGroup_success st ctx gp fm2 base now g hg hm).1,
         (sendGroup_success st ctx gp fm2 base now g hg hm).2⟩

/-- Witness: the C1 theorem applied at a concrete state where A is the only
connected user and sends in group g1. -/
theorem fanout_live_delivery_vs_notification_witness :
    List.find? (fun x => x.gid == "g1") fanoutW.groups = some gW ∧
    gW.hasMember "A" = true ∧
    (sendGroupMessage fanoutW ⟨"A", "alice", "sA"⟩ ⟨"g1", "hi", none, none⟩
        "m2" "n-" 7 none).2
      = (roomSockets fanoutW.rooms ("group:" ++ "g1")).map
          (fun sid => ⟨sid, "receive-group-message", "m2"⟩)
        ++ [⟨"sA", "group-message-sent", "m2"⟩] :=
  ⟨by decide, by decide,
    (fanout_live_delivery_vs_notification fanoutW ⟨"A", "alice", "sA"⟩
      ⟨"B", "hi", none, none⟩ "c1" "m1" "n1" 7 gW ⟨"g1", "hi", none, none⟩ "m2" "n-"
      (by decide) (by decide)).2.2.2⟩

/-- C9: set-status with any valid status, offline included, rewrites only
the persisted user documents and produces status-change emissions; the
Presence Registry, the room subscriptions and every other collection are
untouched, so a subsequent private fanout to a user who set status offline
still finds the presence entry, delivers live and creates no Notification. -/
theorem set_status_keeps_presence_and_fanout (st : ServerState) (ctx : SendCtx)
    (status : String) (now : Nat)
    (hvalid : status ∈ ["online", "away", "offline"]) :
    (setStatus st ctx status now).1.activeUsers = st.activeUsers ∧
    (setStatus st ctx status now).1.rooms = st.rooms ∧
    (setStatus st ctx status now).1.chats = st.chats ∧
    (setStatus st ctx status now).1.groups = st.groups ∧
    (setStatus st ctx status now).1.messages = st.messages ∧
    (setStatus st ctx status now).1.notifications = st.notifications ∧
    (setStatus st ctx status now).1.users = st.users.map (fun u =>
      if u.uid == ctx.senderId then
        { u with status := status,
                 lastSeen := if status = "offline" then now else u.lastSeen }
      else u) ∧
    (∀ (ctx2 : SendCtx) (p : PrivatePayload) (fc fm fn : String) (now2 : Nat)
        (sid : String),
      mget st.activeUsers p.recipientId = some sid →
      (sendPrivateMessage (setStatus st ctx status now).1 ctx2 p fc fm fn now2
          none).1.notifications = (setStatus st ctx status now).1.notifications ∧
      (sendPrivateMessage (setStatus st ctx status now).1 ctx2 p fc fm fn now2 none).2
        = [⟨sid, "receive-private-message", fm⟩,
           ⟨ctx2.senderSocket, "private-message-sent", fm⟩]) := by
  have hst : setStatus st ctx status now
      = ({ st with users := st.users.map (fun u =>
            if u.uid == ctx.senderId then
              { u with status := status,
                       lastSeen := if status = "offline" then now else u.lastSeen }
            else u) },
         (friendIdsOf st ctx.senderId).filterMap (fun fid =>
           (mget st.activeUsers fid).map
             (fun sid => ⟨sid, "user-status-change", status⟩))) := by
    unfold setStatus
    rw [if_neg (not_not_intro hvalid)]
  have hA : (setStatus st ctx status now).1.activeUsers = st.activeUsers := by rw [hst]
  refine ⟨hA, by rw [hst], by rw [hst], by rw [hst], by rw [hst], by rw [hst],
          by rw [hst], ?_⟩
  intro ctx2 p fc fm fn now2 sid hon
  exact sendPrivate_online (setStatus st ctx status now).1 ctx2 p fc fm fn now2 sid
    (by rw [hA]; exact hon)

/-- Witness: the C9 theorem at a concrete state where B sets status offline
and then still receives a private message live, with no notification. -/
theorem set_status_keeps_presence_and_fanout_witness :
    ("offline" : String) ∈ ["online", "away", "offline"] ∧
    (sendPrivateMessage (setStatus statusW ⟨"B", "bob", "sB"⟩ "offline" 5).1
        ⟨"A", "alice", "sA"⟩ ⟨"B", "hi", none, none⟩ "c1" "m9" "n9" 9 none).2
      = [⟨"sB", "receive-private-message", "m9"⟩,
         ⟨"sA", "private-message-sent", "m9"⟩] :=
  ⟨by decide,
    ((set_status_keeps_presence_and_fanout statusW ⟨"B", "bob", "sB"⟩ "offline" 5
        (by decide)).2.2.2.2.2.2.2 ⟨"A", "alice", "sA"⟩ ⟨"B", "hi", none, none⟩
        "c1" "m9" "n9" 9 "sB" (by decide)).2⟩

/-- C4 counterexample: a notification-write failure for the only (offline)
recipient of a private send, after the message was persisted, is surfaced
to the sender as message-error and the private-message-sent acknowledgement
is never emitted, contradicting the claimed isolation. -/
theorem notif_write_failure_visible :
    let st : ServerState := ⟨[("A", "sA")], [], [], [], [], [], [], []⟩
    let r := sendPrivateMessage st ⟨"A", "alice", "sA"⟩ ⟨"B", "hi", none, none⟩
      "c1" "m1" "n1" 3 (some PFail.notifSave)
    r.1.messages = [⟨"m1", "A", "hi", "c1", "Chat", "text", none, [⟨"A", 3⟩]⟩] ∧
    r.2 = [⟨"sA", "message-error", "Failed to send message"⟩] ∧
    r.2.filter (fun e => e.event == "private-message-sent") = [] := by
  decide

/-- C4 (amended): a notification-write failure occurring after the message
was persisted leaves the persisted message (and, for group sends, the live
room deliveries already emitted) in place and writes no notification, but it
is caught by the handler's single catch block: the failure IS surfaced to
the sender as a message-error event and the success acknowledgement is
suppressed. -/
theorem notif_write_failure_semantics (st : ServerState) (ctx : SendCtx)
    (p : PrivatePayload) (fc fm fn : String) (now : Nat)
    (g : GroupDoc) (gp : GroupPayload) (fm2 base : String)
    (hoff : mget st.activeUsers p.recipientId = none)
    (hg : st.groups.find? (fun x => x.gid == gp.groupId) = some g)
    (hm : g.hasMember ctx.senderId = true)
    (hsome : offlineMembersOf st g ctx.senderId ≠ []) :
    ((∃ cid, (sendPrivateMessage st ctx p fc fm fn now
          (some PFail.notifSave)).1.messages
        = st.messages ++ [⟨fm, ctx.senderId, p.content, cid, "Chat",
            p.messageType.getD "text", p.mediaUrl, [⟨ctx.senderId, now⟩]⟩]) ∧
      (sendPrivateMessage st ctx p fc fm fn now
          (some PFail.notifSave)).1.notifications = st.notifications ∧
      (sendPrivateMessage st ctx p fc fm fn now (some PFail.notifSave)).2
        = [⟨ctx.senderSocket, "message-error", "Failed to send message"⟩]) ∧
    ((sendGroupMessage st ctx gp fm2 base now (some GFail.notifInsert)).1.messages
        = st.messages ++ [⟨fm2, ctx.senderId, gp.content, gp.groupId, "GroupChat",
            gp.messageType.getD "text", gp.mediaUrl, [⟨ctx.senderId, now⟩]⟩] ∧
      (sendGroupMessage st ctx gp fm2 base now
          (some GFail.notifInsert)).1.notifications = st.notifications ∧
      (sendGroupMessage st ctx gp fm2 base now (some GFail.notifInsert)).2
        = (roomSockets st.rooms ("group:" ++ gp.groupId)).map
            (fun sid => ⟨sid, "receive-group-message", fm2⟩)
          ++ [⟨ctx.senderSocket, "message-error", "Failed to send message"⟩]) := by
  constructor
  · unfold sendPrivateMessage
    cases hfound : st.chats.find? (fun c =>
        c.participants.contains ctx.senderId && c.participants.contains p.recipientId) with
    | none => exact ⟨⟨fc, by simp [hfound, hoff]⟩, by simp [hfound, hoff],
        by simp [hfound, hoff]⟩
    | some c0 => exact ⟨⟨c0.cid, by simp [hfound, hoff]⟩, by simp [hfound, hoff],
        by simp [hfound, hoff]⟩
  · have hlen : 0 < (List.filter
        (fun m => m.user != ctx.senderId && !mhas st.activeUsers m.user) g.members).length := by
      rcases hq : List.filter
          (fun m => m.user != ctx.senderId && !mhas st.activeUsers m.user) g.members with
        _ | ⟨a, t⟩
      · exact absurd (by simp [offlineMembersOf, hq]) hsome
      · rw [hq]; simp
    unfold sendGroupMessage
    rw [hg]
    refine ⟨by simp [hm, offlineMembersOf, hlen], by simp [hm, offlineMembersOf, hlen],
      by simp [hm, offlineMembersOf, hlen]⟩

/-- Witness: the C4 theorem at the concrete state fanoutW, where B is the
offline recipient in both the private and the group path. -/
theorem notif_write_failure_semantics_witness :
    mget fanoutW.activeUsers "B" = none ∧
    offlineMembersOf fanoutW gW "A" ≠ [] ∧
    (sendPrivateMessage fanoutW ⟨"A", "alice", "sA"⟩ ⟨"B", "hi", none, none⟩
        "c1" "m1" "n1" 3 (some PFail.notifSave)).2
      = [⟨"sA", "message-error", "Failed to send message"⟩] :=
  ⟨by decide, by decide,
    (notif_write_failure_semantics fanoutW ⟨"A", "alice", "sA"⟩
      ⟨"B", "hi", none, none⟩ "c1" "m1" "n1" 3 gW ⟨"g1", "hi", none, none⟩ "m2" "n-"
      (by decide) (by decide) (by decide) (by decide)).1.2.2⟩

/-- C5 counterexample: for a send into an existing chat, a failure of the
last-activity save aborts the whole handler: no message is persisted and
message-error is emitted, so the failure is precisely treated as a
message-send failure; moreover when instead the later message save fails,
the last-activity update is already persisted, showing it happens before,
not after, message persistence. -/
theorem last_activity_failure_fails_send :
    let r := sendPrivateMessage chatW ⟨"A", "alice", "sA"⟩ ⟨"B", "hi", none, none⟩
      "c9" "m1" "n1" 3 (some PFail.chatSave)
    let r2 := sendPrivateMessage chatW ⟨"A", "alice", "sA"⟩ ⟨"B", "hi", none, none⟩
      "c9" "m1" "n1" 3 (some PFail.messageSave)
    r.1 = chatW ∧
    r.2 = [⟨"sA", "message-error", "Failed to send message"⟩] ∧
    r2.1.chats = [⟨"c1", ["A", "B"], 3⟩] ∧
    r2.1.messages = [] ∧
    r2.2 = [⟨"sA", "message-error", "Failed to send message"⟩] := by
  decide

/-- C5 (amended): in both send handlers the chat/group last-activity marker
is updated and saved BEFORE the message is persisted.  A failure of the
last-activity save aborts the handler before any message exists and is
reported to the sender as message-error (the send fails); a failure of the
later message save leaves the already-saved last-activity update in place,
not rolled back. -/
theorem last_activity_update_order (st : ServerState) (ctx : SendCtx)
    (p : PrivatePayload) (fc fm fn : String) (now : Nat) (c0 : ChatDoc)
    (g : GroupDoc) (gp : GroupPayload) (fm2 base : String)
    (hfound : st.chats.find? (fun c =>
      c.participants.contains ctx.senderId && c.participants.contains p.recipientId)
        = some c0)
    (hg : st.groups.find? (fun x => x.gid == gp.groupId) = some g)
    (hm : g.hasMember ctx.senderId = true) :
    (sendPrivateMessage st ctx p fc fm fn now (some PFail.chatSave)
      = (st, [⟨ctx.senderSocket, "message-error", "Failed to send message"⟩])) ∧
    ((sendPrivateMessage st ctx p fc fm fn now (some PFail.messageSave)).1.chats
        = st.chats.map (fun x =>
            if x.cid == c0.cid then { c0 with lastActivity := now } else x) ∧
      (sendPrivateMessage st ctx p fc fm fn now (some PFail.messageSave)).1.messages
        = st.messages ∧
      (sendPrivateMessage st ctx p fc fm fn now (some PFail.messageSave)).2
        = [⟨ctx.senderSocket, "message-error", "Failed to send message"⟩]) ∧
    (sendGroupMessage st ctx gp fm2 base now (some GFail.groupSave)
      = (st, [⟨ctx.senderSocket, "message-error", "Failed to send message"⟩])) ∧
    ((sendGroupMessage st ctx gp fm2 base now (some GFail.messageSave)).1.groups
        = st.groups.map (fun x =>
            if x.gid == g.gid then { g with lastActivity := now } else x) ∧
      (sendGroupMessage st ctx gp fm2 base now (some GFail.messageSave)).1.messages
        = st.messages ∧
      (sendGroupMessage st ctx gp fm2 base now (some GFail.messageSave)).2
        = [⟨ctx.senderSocket, "message-error", "Failed to send message"⟩]) := by
  refine ⟨by simp [sendPrivateMessage], ⟨?_, ?_, ?_⟩, ?_, ⟨?_, ?_, ?_⟩⟩
  · unfold sendPrivateMessage; rw [hfound]; simp
  · unfold sendPrivateMessage; rw [hfound]; simp
  · unfold sendPrivateMessage; rw [hfound]; simp
  · unfold sendGroupMessage; rw [hg]; simp [hm]
  · unfold sendGroupMessage; rw [hg]; simp [hm]
  · unfold sendGroupMessage; rw [hg]; simp [hm]
  · unfold sendGroupMessage; rw [hg]; simp [hm]

/-- Witness: the C5 theorem at the concrete state chatW holding the chat c1
between A and B and the group g1. -/
theorem last_activity_update_order_witness :
    List.find? (fun c =>
      c.participants.contains "A" && c.participants.contains "B") chatW.chats
        = some ⟨"c1", ["A", "B"], 0⟩ ∧
    sendPrivateMessage chatW ⟨"A", "alice", "sA"⟩ ⟨"B", "hi", none, none⟩
        "c9" "m1" "n1" 3 (some PFail.chatSave)
      = (chatW, [⟨"sA", "message-error", "Failed to send message"⟩]) :=
  ⟨by decide,
    (last_activity_update_order chatW ⟨"A", "alice", "sA"⟩ ⟨"B", "hi", none, none⟩
      "c9" "m1" "n1" 3 ⟨"c1", ["A", "B"], 0⟩ gW ⟨"g1", "hi", none, none⟩ "m2" "n-"
      (by decide) (by decide) (by decide)).1⟩

/-- C6 counterexample: in a state where the sender's socket is joined to the
group room, the sender's own connection receives the receive-group-message
event for the message it just sent, besides the ack. -/
theorem sender_receives_own_group_message :
    let r := sendGroupMessage fanoutW ⟨"A", "alice", "sA"⟩ ⟨"g1", "hi", none, none⟩
      "m1" "n-" 5 none
    (⟨"sA", "receive-group-message", "m1"⟩ : Emit) ∈ r.2 ∧
    (⟨"sA", "group-message-sent", "m1"⟩ : Emit) ∈ r.2 := by
  decide

/-- C6 (amended): the receive-group-message event is emitted to every socket
currently in the group room — io.to does not exclude the sender — so when
the sender's socket is joined to the room (as it is from connect time), the
sender's own connection receives receive-group-message for its own message
in addition to the group-message-sent acknowledgement. -/
theorem group_broadcast_includes_sender (st : ServerState) (ctx : SendCtx)
    (gp : GroupPayload) (fm2 base : String) (now : Nat) (g : GroupDoc)
    (hg : st.groups.find? (fun x => x.gid == gp.groupId) = some g)
    (hm : g.hasMember ctx.senderId = true)
    (hroom : ctx.senderSocket ∈ roomSockets st.rooms ("group:" ++ gp.groupId)) :
    (∀ sid ∈ roomSockets st.rooms ("group:" ++ gp.groupId),
      (⟨sid, "receive-group-message", fm2⟩ : Emit)
        ∈ (sendGroupMessage st ctx gp fm2 base now none).2) ∧
    (⟨ctx.senderSocket, "receive-group-message", fm2⟩ : Emit)
      ∈ (sendGroupMessage st ctx gp fm2 base now none).2 ∧
    (⟨ctx.senderSocket, "group-message-sent", fm2⟩ : Emit)
      ∈ (sendGroupMessage st ctx gp fm2 base now none).2 := by
  have hs := (sendGroup_success st ctx gp fm2 base now g hg hm).2
  refine ⟨?_, ?_, ?_⟩
  · intro sid hsid
    rw [hs]
    exact List.mem_append_left _ (List.mem_map.mpr ⟨sid, hsid, rfl⟩)
  · rw [hs]
    exact List.mem_append_left _ (List.mem_map.mpr ⟨ctx.senderSocket, hroom, rfl⟩)
  · rw [hs]
    exact List.mem_append_right _ (by simp)

/-- Witness: the C6 theorem at the concrete state fanoutW, where sender A's
socket sA is joined to the room of group g1. -/
theorem group_broadcast_includes_sender_witness :
    "sA" ∈ roomSockets fanoutW.rooms ("group:" ++ "g1") ∧
    (⟨"sA", "receive-group-message", "m2"⟩ : Emit)
      ∈ (sendGroupMessage fanoutW ⟨"A", "alice", "sA"⟩ ⟨"g1", "hi", none, none⟩
          "m2" "n-" 7 none).2 :=
  ⟨by decide,
    (group_broadcast_includes_sender fanoutW ⟨"A", "alice", "sA"⟩
      ⟨"g1", "hi", none, none⟩ "m2" "n-" 7 gW
      (by decide) (by decide) (by decide)).2.1⟩

/-- typing-start only ever emits typing events: no branch produces an error
or authorization event, whoever the caller is. -/
theorem typingStart_event_only (st : ServerState) (ctx : SendCtx)
    (chatId chatType : String) :
    ∀ e ∈ typingStart st ctx chatId chatType, e.event = "typing" := by
  intro e he
  unfold typingStart at he
  split at he
  · split at he
    · exact absurd he (List.not_mem_nil e)
    · split at he
      · exact absurd he (List.not_mem_nil e)
      · split at he
        · exact absurd he (List.not_mem_nil e)
        · rw [List.mem_singleton] at he
          rw [he]
  · split at he
    · obtain ⟨a, _, rfl⟩ := List.mem_map.mp he
      rfl
    · exact absurd he (List.not_mem_nil e)

/-- mark-as-read with a caller not yet in readBy appends the caller's read
entry to the stored message and emits at most a message-read event. -/
theorem markAsRead_appends (st : ServerState) (ctx : SendCtx) (messageId : String)
    (now : Nat) (m : MessageDoc)
    (hfind : st.messages.find? (fun x => x.mid == messageId) = some m)
    (hnot : m.readBy.any (fun r => r.user == ctx.senderId) = false) :
    ((markAsRead st ctx messageId now).1.messages.find? (fun x => x.mid == messageId)
      = some { m with readBy := m.readBy ++ [⟨ctx.senderId, now⟩] }) ∧
    (∀ e ∈ (markAsRead st ctx messageId now).2, e.event = "message-read") := by
  have hp : (m.mid == messageId) = true := by
    have := List.find?_some hfind
    simpa using this
  constructor
  · unfold markAsRead
    rw [hfind]
    simp only [hnot, Bool.false_eq_true, if_false]
    cases hrg : mget st.activeUsers m.sender with
    | none =>
      simp only []
      exact find?_map_update _ st.messages m _ hfind hp
    | some sid =>
      simp only []
      exact find?_map_update _ st.messages m _ hfind hp
  · intro e he
    unfold markAsRead at he
    rw [hfind] at he
    simp only [hnot, Bool.false_eq_true, if_false] at he
    cases hrg : mget st.activeUsers m.sender with
    | none => rw [hrg] at he; exact absurd he (List.not_mem_nil e)
    | some sid =>
      rw [hrg] at he
      rw [List.mem_singleton] at he
      rw [he]

/-- C3 counterexample: user X is not a participant of chat c1 (participants
A, B) and never read message m1, yet typing-start from X relays a typing
event to A with no error, and mark-as-read from X appends X's read entry to
m1 and emits a read receipt to A — no AuthorizationError, and both
operations take effect. -/
theorem non_participant_not_rejected :
    typingStart authW ⟨"X", "xavier", "sX"⟩ "c1" "Chat"
      = [⟨"sA", "typing", "X"⟩] ∧
    (markAsRead authW ⟨"X", "xavier", "sX"⟩ "m1" 4).2
      = [⟨"sA", "message-read", "m1"⟩] ∧
    (markAsRead authW ⟨"X", "xavier", "sX"⟩ "m1" 4).1.messages
      = [⟨"m1", "A", "hi", "c1", "Chat", "text", none, [⟨"A", 0⟩, ⟨"X", 4⟩]⟩] := by
  decide

/-- C3 (amended): of the four operations only send-group-message checks
membership, rejecting a non-member with a message-error event reading Not a
member of this group and leaving the state unchanged (whatever database
fault is pending).  typing-start performs no access check and only ever
emits typing events, for any caller; mark-as-read performs no access check
either and records the read entry of any authenticated caller not yet in
the readBy list, emitting at most a read receipt.  send-private-message
needs no participant check because the sender becomes a participant of the
found-or-created direct chat. -/
theorem only_group_send_checks_membership
    (st : ServerState) (ctx : SendCtx) (gp : GroupPayload) (fm2 base : String)
    (now : Nat) (g : GroupDoc) (failAt : Option GFail)
    (st2 : ServerState) (ctx2 : SendCtx) (chatId chatType : String)
    (st3 : ServerState) (ctx3 : SendCtx) (messageId : String) (now3 : Nat)
    (m : MessageDoc)
    (hg : st.groups.find? (fun x => x.gid == gp.groupId) = some g)
    (hmneg : g.hasMember ctx.senderId = false)
    (hfind : st3.messages.find? (fun x => x.mid == messageId) = some m)
    (hnot : m.readBy.any (fun r => r.user == ctx3.senderId) = false) :
    (sendGroupMessage st ctx gp fm2 base now failAt
      = (st, [⟨ctx.senderSocket, "message-error", "Not a member of this group"⟩])) ∧
    (∀ e ∈ typingStart st2 ctx2 chatId chatType, e.event = "typing") ∧
    ((markAsRead st3 ctx3 messageId now3).1.messages.find?
        (fun x => x.mid == messageId)
      = some { m with readBy := m.readBy ++ [⟨ctx3.senderId, now3⟩] }) ∧
    (∀ e ∈ (markAsRead st3 ctx3 messageId now3).2, e.event = "message-read") := by
  refine ⟨?_, typingStart_event_only st2 ctx2 chatId chatType,
    (markAsRead_appends st3 ctx3 messageId now3 m hfind hnot).1,
    (markAsRead_appends st3 ctx3 messageId now3 m hfind hnot).2⟩
  unfold sendGroupMessage
  rw [hg]
  simp [hmneg]

/-- Witness: the C3 theorem at concrete states — X is not a member of group
g1 and not a participant of chat c1. -/
theorem only_group_send_checks_membership_witness :
    gW.hasMember "X" = false ∧
    sendGroupMessage authW ⟨"X", "xavier", "sX"⟩ ⟨"g1", "yo", none, none⟩
        "m7" "n-" 7 none
      = (authW, [⟨"sX", "message-error", "Not a member of this group"⟩]) :=
  ⟨by decide,
    (only_group_send_checks_membership authW ⟨"X", "xavier", "sX"⟩
      ⟨"g1", "yo", none, none⟩ "m7" "n-" 7 gW none
      authW ⟨"X", "xavier", "sX"⟩ "c1" "Chat"
      authW ⟨"X", "xavier", "sX"⟩ "m1" 4
      ⟨"m1", "A", "hi", "c1", "Chat", "text", none, [⟨"A", 0⟩]⟩
      (by decide) (by decide) (by decide) (by decide)).1⟩

/-- C7: when the caller has no readBy entry on the stored message, a first
mark-as-read stores the message with exactly one read entry for that caller,
and a second mark-as-read for the same (user, message) pair is a no-op: it
returns the state unchanged with no emission and no error. -/
theorem mark_as_read_idempotent (st : ServerState) (ctx : SendCtx)
    (messageId : String) (now1 now2 : Nat) (m : MessageDoc)
    (hfind : st.messages.find? (fun x => x.mid == messageId) = some m)
    (hnew : countReads m ctx.senderId = 0) :
    ((markAsRead st ctx messageId now1).1.messages.find?
        (fun x => x.mid == messageId)
      = some { m with readBy := m.readBy ++ [⟨ctx.senderId, now1⟩] }) ∧
    countReads { m with readBy := m.readBy ++ [⟨ctx.senderId, now1⟩] }
        ctx.senderId = 1 ∧
    markAsRead (markAsRead st ctx messageId now1).1 ctx messageId now2
      = ((markAsRead st ctx messageId now1).1, []) := by
  have hfil : m.readBy.filter (fun r => r.user == ctx.senderId) = [] :=
    List.length_eq_zero.mp hnew
  have hnot : m.readBy.any (fun r => r.user == ctx.senderId) = false := by
    rw [List.any_eq_false]
    intro r hr
    have := List.filter_eq_nil_iff.mp hfil r hr
    simpa using this
  have h1 := (markAsRead_appends st ctx messageId now1 m hfind hnot).1
  refine ⟨h1, ?_, ?_⟩
  · simp [countReads, List.filter_append, hfil]
  · have key : ∀ s1 : ServerState,
        s1.messages.find? (fun x => x.mid == messageId)
          = some { m with readBy := m.readBy ++ [⟨ctx.senderId, now1⟩] } →
        markAsRead s1 ctx messageId now2 = (s1, []) := by
      intro s1 hf
      unfold markAsRead
      rw [hf]
      simp [List.any_append]
    exact key _ h1

/-- Witness: the C7 theorem at the concrete state authW, with B reading
message m1 twice. -/
theorem mark_as_read_idempotent_witness :
    countReads ⟨"m1", "A", "hi", "c1", "Chat", "text", none, [⟨"A", 0⟩]⟩ "B" = 0 ∧
    markAsRead (markAsRead authW ⟨"B", "bob", "sB"⟩ "m1" 4).1 ⟨"B", "bob", "sB"⟩
        "m1" 9
      = ((markAsRead authW ⟨"B", "bob", "sB"⟩ "m1" 4).1, []) :=
  ⟨by decide,
    (mark_as_read_idempotent authW ⟨"B", "bob", "sB"⟩ "m1" 4 9
      ⟨"m1", "A", "hi", "c1", "Chat", "text", none, [⟨"A", 0⟩]⟩
      (by decide) (by decide)).2.2⟩

/-- C8: every Notification created during fanout carries the handler's
content rule: the private fanout notification's content is exactly
privateNotifContent, group fanout notifications carry groupNotifContent,
and both rules embed a text content truncated to the first 30 characters,
appending an ellipsis marker exactly when the content exceeds 30
characters, while a message without text content is summarized by its
message type instead. -/
theorem notification_content_rule (st : ServerState) (ctx : SendCtx)
    (p : PrivatePayload) (fc fm fn : String) (now : Nat)
    (g : GroupDoc) (gp : GroupPayload) (fm2 base : String)
    (hoff : mget st.activeUsers p.recipientId = none)
    (hg : st.groups.find? (fun x => x.gid == gp.groupId) = some g)
    (hm : g.hasMember ctx.senderId = true) :
    (∃ cid, (sendPrivateMessage st ctx p fc fm fn now none).1.notifications
      = st.notifications ++
        [⟨fn, p.recipientId, ctx.senderId, "message",
          privateNotifContent ctx.senderUsername p.content p.messageType,
          cid, "Chat", fm, false, none⟩]) ∧
    (∀ n ∈ (sendGroupMessage st ctx gp fm2 base now none).1.notifications,
      n ∈ st.notifications ∨
      n.content = groupNotifContent ctx.senderUsername gp.content g.name
        gp.messageType) ∧
    (∀ (username content : String) (mt : Option String),
      (content ≠ "" → content.length ≤ 30 →
        privateNotifContent username content mt
          = username ++ " sent you a message: " ++ content ∧
        groupNotifContent username content g.name mt
          = username ++ " sent a message in " ++ g.name ++ ": " ++ content) ∧
      (content ≠ "" → 30 < content.length →
        privateNotifContent username content mt
          = username ++ " sent you a message: " ++ content.take 30 ++ "..." ∧
        groupNotifContent username content g.name mt
          = username ++ " sent a message in " ++ g.name ++ ": "
            ++ content.take 30 ++ "...") ∧
      (privateNotifContent username "" mt
          = username ++ " sent you a " ++ jsShow mt ∧
       groupNotifContent username "" g.name mt
          = username ++ " sent a " ++ jsShow mt ++ " in " ++ g.name)) := by
  refine ⟨(sendPrivate_offline st ctx p fc fm fn now hoff).1, ?_, ?_⟩
  · intro n hn
    rw [(sendGroup_success st ctx gp fm2 base now g hg hm).1] at hn
    rcases List.mem_append.mp hn with hold | hnew
    · exact Or.inl hold
    · obtain ⟨memberId, _, rfl⟩ := List.mem_map.mp hnew
      exact Or.inr rfl
  · intro username content mt
    refine ⟨fun hne hlen => ⟨?_, ?_⟩, fun hne hlen => ⟨?_, ?_⟩, ?_, ?_⟩
    · simp [privateNotifContent, hne, string_take_of_le content 30 hlen,
        Nat.not_lt.mpr hlen]
    · simp [groupNotifContent, hne, string_take_of_le content 30 hlen,
        Nat.not_lt.mpr hlen]
    · simp [privateNotifContent, hne, hlen]
    · simp [groupNotifContent, hne, hlen]
    · simp [privateNotifContent]
    · simp [groupNotifContent]

/-- Witness: the C8 theorem at the concrete state fanoutW, exercising the
ellipsis case on a 31-character content. -/
theorem notification_content_rule_witness :
    mget fanoutW.activeUsers "B" = none ∧
    ("0123456789012345678901234567890" : String).length = 31 ∧
    privateNotifContent "alice" "0123456789012345678901234567890" none
      = "alice" ++ " sent you a message: "
        ++ ("0123456789012345678901234567890" : String).take 30 ++ "..." :=
  ⟨by decide, by decide,
    (((notification_content_rule fanoutW ⟨"A", "alice", "sA"⟩
        ⟨"B", "hi", none, none⟩ "c1" "m1" "n1" 7 gW ⟨"g1", "hi", none, none⟩
        "m2" "n-" (by decide) (by decide) (by decide)).2.2
      "alice" "0123456789012345678901234567890" none).2.1
      (by decide) (by decide)).1⟩

end SocketChat
